import Mathlib

/-!
# Verification of the BM3D CPU VapourSynth wrapper (src/cpu_source/source.cpp)

A shallow embedding of the per-frame orchestration layer of the BM3D filter:
filter construction (`BM3DCreate`), video-info initialization (`BM3DInit`),
the two-phase frame request protocol and kernel dispatch (`BM3DGetFrame`),
the per-thread scratch-buffer pool, and the frame-property tagging.

C++ `float` arithmetic is modelled exactly over `ℚ`; the properties proved
here concern the structure of the computation (which values are multiplied
by which constants, which comparisons gate which branches), not rounding.
C++ `int` is modelled as `ℤ` (no overflow occurs at the magnitudes involved).
-/

set_option autoImplicit false

namespace BM3D

/-! ## Video formats and clip info (VapourSynth data model) -/

/-- Sample type of a VapourSynth format (`stInteger` / `stFloat`). -/
inductive SampleType where
  | stInteger
  | stFloat
  deriving DecidableEq, Repr

/-- The parts of `VSFormat` read by source.cpp: `id`, `sampleType`,
`bitsPerSample`, `numPlanes`, and the chroma subsampling shifts. -/
structure VSFormat where
  id : ℤ
  sampleType : SampleType
  bitsPerSample : ℤ
  numPlanes : ℕ
  subSamplingW : ℕ
  subSamplingH : ℕ
  deriving DecidableEq, Repr

/-- The parts of `VSVideoInfo` read by source.cpp. -/
structure VSVideoInfo where
  format : VSFormat
  width : ℤ
  height : ℤ
  numFrames : ℤ
  deriving DecidableEq, Repr

/-- The preset id `pfYUV444PS` compared against in the `chroma` check.
Only equality with it matters anywhere, so the numeral is immaterial. -/
def pfYUV444PS : ℤ := 3000015

/-- `isConstantFormat(vi)`: the format is fixed and the dimensions nonzero.
(In the C API a variable-format clip has null format / zero dimensions;
our `VSVideoInfo` always carries a format, so only the dimensions remain.) -/
def isConstantFormat (vi : VSVideoInfo) : Bool :=
  vi.width ≠ 0 && vi.height ≠ 0

/-- `std::clamp(v, lo, hi)`: `v < lo ? lo : hi < v ? hi : v`. -/
def stdClamp (v lo hi : ℤ) : ℤ :=
  if v < lo then lo else if hi < v then hi else v

/-! ## The filter instance (`struct BM3DData`)

Arrays `T x[3]` are modelled as length-3 lists read with `List.getD`. -/

/-- `struct BM3DData` (source.cpp lines 38-54).  Node handles are modelled by
`hasRef : Bool` (whether `ref_node != nullptr`); the scratch-buffer map is
modelled separately as explicit pool state (see `acquireBuffer`). -/
structure BM3DData where
  vi : VSVideoInfo
  hasRef : Bool
  sigma : List ℚ
  block_step : List ℤ
  bm_range : List ℤ
  radius : ℤ
  ps_num : List ℤ
  ps_range : List ℤ
  chroma : Bool
  process : List Bool
  deriving DecidableEq, Repr

/-! ## BM3DInit (source.cpp lines 56-70) -/

/-- `BM3DInit`: the advertised video info.  For `radius != 0` the height is
multiplied by `2 * (2 * radius + 1)`; otherwise the input info is passed
through unchanged. -/
def BM3DInit (d : BM3DData) : VSVideoInfo :=
  if d.radius ≠ 0 then
    { d.vi with height := d.vi.height * (2 * (2 * d.radius + 1)) }
  else
    d.vi

/-! ## BM3DGetFrame, announce phase (`arInitial`, lines 79-90) -/

/-- The indices requested from `d->node` in the `arInitial` branch:
`for (i = max(n - radius, 0); i <= min(n + radius, numFrames - 1); ++i)`. -/
def requestedIndices (n radius numFrames : ℤ) : List ℤ :=
  let start := max (n - radius) 0
  let stop := min (n + radius) (numFrames - 1)
  (List.range (stop + 1 - start).toNat).map (fun (j : ℕ) => start + (j : ℤ))

/-- The indices requested from `d->ref_node` when a reference node is
configured: a second loop with the same bounds (lines 86-90). -/
def refRequestedIndices (n radius numFrames : ℤ) : List ℤ :=
  let start := max (n - radius) 0
  let stop := min (n + radius) (numFrames - 1)
  (List.range (stop + 1 - start).toNat).map (fun (j : ℕ) => start + (j : ℤ))

/-! ## BM3DGetFrame, fetch phase: the frame window (lines 95-114) -/

/-- The source-frame indices fetched in the `arAllFramesReady` branch:
`for (i = -radius; i <= radius; ++i) clamp(n + i, 0, numFrames - 1)`. -/
def windowIndices (n radius numFrames : ℤ) : List ℤ :=
  (List.range (2 * radius + 1).toNat).map
    (fun (j : ℕ) => stdClamp (n + ((j : ℤ) - radius)) 0 (numFrames - 1))

/-- The reference-frame indices fetched when a reference node is configured:
the identical loop on `d->ref_node` (lines 104-114). -/
def refWindowIndices (n radius numFrames : ℤ) : List ℤ :=
  (List.range (2 * radius + 1).toNat).map
    (fun (j : ℕ) => stdClamp (n + ((j : ℤ) - radius)) 0 (numFrames - 1))

/-! ## BM3DCreate (source.cpp lines 378-515) -/

/-- `std::numeric_limits<float>::epsilon()`, i.e. `2^-23`, exactly. -/
def floatEpsilon : ℚ := 1 / 2 ^ 23

/-- The sigma normalization constant of line 428:
`(3.f / 4.f) / 255.f * 64.f * (ref_node == nullptr ? 2.7f : 1.0f)`,
modelled exactly over `ℚ`. -/
def sigmaScale (hasRef : Bool) : ℚ :=
  (3 / 4) / 255 * 64 * (if hasRef then 1 else 27 / 10)

/-- One iteration of the sigma loop (lines 417-433): read `sigma[i]`; on a
missing entry default to `3` at `i = 0` and otherwise to the previous
*stored* value `d->sigma[i-1]` (which has already been scaled); reject a
supplied negative value; then scale by `sigmaScale` and derive the process
flag `!(sigma < epsilon)`.  Returns `(scaled sigma, process flag)`. -/
def sigmaStep (input : List ℚ) (hasRef : Bool) (i : ℕ) (prev : ℚ) :
    Except String (ℚ × Bool) :=
  match input[i]? with
  | some s =>
      if s < 0 then .error "\"sigma\" must be non-negative"
      else
        let scaled := s * sigmaScale hasRef
        .ok (scaled, !(scaled < floatEpsilon))
  | none =>
      let raw : ℚ := if i = 0 then 3 else prev
      let scaled := raw * sigmaScale hasRef
      .ok (scaled, !(scaled < floatEpsilon))

/-- The full sigma loop: the three iterations chained through the stored
array (`prev` of iteration `i` is the scaled value stored at `i-1`). -/
def computeSigma (input : List ℚ) (hasRef : Bool) :
    Except String (List (ℚ × Bool)) :=
  match sigmaStep input hasRef 0 0 with
  | .error e => .error e
  | .ok s0 =>
    match sigmaStep input hasRef 1 s0.1 with
    | .error e => .error e
    | .ok s1 =>
      match sigmaStep input hasRef 2 s1.1 with
      | .error e => .error e
      | .ok s2 => .ok [s0, s1, s2]

/-- One iteration of an integer-parameter loop (`block_step`, `bm_range`,
`ps_num`, `ps_range`, lines 435-493): a missing entry defaults to `dflt` at
`i = 0` and to the previous stored value otherwise; a supplied entry
satisfying `invalid` is a construction error with message `err`. -/
def intParamStep (input : List ℤ) (dflt : ℤ) (invalid : ℤ → Prop)
    [DecidablePred invalid] (err : String) (i : ℕ) (prev : ℤ) :
    Except String ℤ :=
  match input[i]? with
  | some v => if invalid v then .error err else .ok v
  | none => .ok (if i = 0 then dflt else prev)

/-- The full three-iteration integer-parameter loop. -/
def computeIntParam (input : List ℤ) (dflt : ℤ) (invalid : ℤ → Prop)
    [DecidablePred invalid] (err : String) : Except String (List ℤ) :=
  match intParamStep input dflt invalid err 0 0 with
  | .error e => .error e
  | .ok v0 =>
    match intParamStep input dflt invalid err 1 v0 with
    | .error e => .error e
    | .ok v1 =>
      match intParamStep input dflt invalid err 2 v1 with
      | .error e => .error e
      | .ok v2 => .ok [v0, v1, v2]

/-- The clip-format check of lines 396-399: only constant-format 32-bit
float input is accepted. -/
def checkClipFormat (vi : VSVideoInfo) : Except String Unit :=
  if ¬ isConstantFormat vi ∨ vi.format.sampleType = SampleType.stInteger ∨
      (vi.format.sampleType = SampleType.stFloat ∧ vi.format.bitsPerSample ≠ 32) then
    .error "only constant format 32 bit float input supported"
  else
    .ok ()

/-- The reference-clip checks of lines 403-415: when `ref` is supplied it
must match `clip` in format id, in dimensions, and in frame count, each
mismatch with its own message. -/
def checkRef (vi : VSVideoInfo) (refVi : Option VSVideoInfo) :
    Except String Unit :=
  match refVi with
  | none => .ok ()
  | some rvi =>
      if rvi.format.id ≠ vi.format.id then
        .error "\"ref\" must be of the same format as \"clip\""
      else if rvi.width ≠ vi.width ∨ rvi.height ≠ vi.height then
        .error "\"ref\" must be of the same dimensions as \"clip\""
      else if rvi.numFrames ≠ vi.numFrames then
        .error "\"ref\" must be of the same number of frames as \"clip\""
      else
        .ok ()

/-- The radius read of lines 461-467: missing defaults to `0`; a negative
value is an error. -/
def readRadius (o : Option ℤ) : Except String ℤ :=
  match o with
  | none => .ok 0
  | some r => if r < 0 then .error "\"radius\" must be positive" else .ok r

/-- The chroma read and check of lines 495-502: missing defaults to
`false`; a nonzero value requires the `pfYUV444PS` format. -/
def readChroma (o : Option ℤ) (vi : VSVideoInfo) : Except String Bool :=
  let chroma := match o with
    | none => false
    | some c => c != 0
  if chroma = true ∧ vi.format.id ≠ pfYUV444PS then
    .error "clip format must be YUV444 when \"chroma\" is true"
  else
    .ok chroma

/-- The arguments `BM3DCreate` reads from the input `VSMap`.  A list models
a (possibly shorter than 3) array argument; `none` models an absent scalar
argument (`peType` error from `propGet*`). -/
structure CreateInput where
  clipVi : VSVideoInfo
  refVi : Option VSVideoInfo
  sigma : List ℚ
  block_step : List ℤ
  bm_range : List ℤ
  radius : Option ℤ
  ps_num : List ℤ
  ps_range : List ℤ
  chroma : Option ℤ

/-- `BM3DCreate` as a fallible computation of the filter instance data, in
the order the checks appear in the source. -/
def BM3DCreateE (inp : CreateInput) : Except String BM3DData :=
  match checkClipFormat inp.clipVi with
  | .error e => .error e
  | .ok _ =>
  match checkRef inp.clipVi inp.refVi with
  | .error e => .error e
  | .ok _ =>
  match computeSigma inp.sigma inp.refVi.isSome with
  | .error e => .error e
  | .ok sp =>
  match computeIntParam inp.block_step 8 (fun v => v ≤ 0 ∨ 8 < v)
      "\"block_step\" must be in range [1, 8]" with
  | .error e => .error e
  | .ok bs =>
  match computeIntParam inp.bm_range 9 (fun v => v ≤ 0)
      "\"bm_range\" must be positive" with
  | .error e => .error e
  | .ok bm =>
  match readRadius inp.radius with
  | .error e => .error e
  | .ok radius =>
  match computeIntParam inp.ps_num 2 (fun v => v ≤ 0)
      "\"ps_num\" must be positive" with
  | .error e => .error e
  | .ok pn =>
  match computeIntParam inp.ps_range 4 (fun v => v ≤ 0)
      "\"ps_range\" must be positive" with
  | .error e => .error e
  | .ok pr =>
  match readChroma inp.chroma inp.clipVi with
  | .error e => .error e
  | .ok chroma =>
      .ok { vi := inp.clipVi
            hasRef := inp.refVi.isSome
            sigma := sp.map Prod.fst
            block_step := bs
            bm_range := bm
            radius := radius
            ps_num := pn
            ps_range := pr
            chroma := chroma
            process := sp.map Prod.snd }

/-- The observable outcome of `BM3DCreate`: either a failure (with the
host-visible message and whether each acquired node handle was released,
no instance being created), or a created filter instance. -/
inductive CreateOutcome where
  | failure (message : String) (clipNodeFreed refNodeFreed : Bool)
  | success (d : BM3DData)
  deriving DecidableEq, Repr

/-- `BM3DCreate`: every error path goes through `set_error`, which prefixes
the message with `"BM3D: "`, frees both node handles, and returns without
calling `createFilter` (lines 390-394). -/
def BM3DCreate (inp : CreateInput) : CreateOutcome :=
  match BM3DCreateE inp with
  | .error msg => .failure ("BM3D: " ++ msg) true true
  | .ok d => .success d

/-! ## BM3DGetFrame, compute phase: geometry, scratch pool, dispatch -/

/-- Modelled from the spec: `num_planes(chroma)` is declared in
`bm3d_impl.hpp`, which is not under `src/`.  Per the spec's plane-group
notion (joint-chroma filters all three planes in one call, per-plane mode
one plane per call), the plane-group size is 3 when `chroma` and 1
otherwise. -/
def num_planes (chroma : Bool) : ℕ := if chroma then 3 else 1

/-- Row stride of a plane in `float` elements (`getStride / sizeof(float)`,
lines 163/259): VapourSynth allocates rows 32-byte aligned. -/
def vsStride (width : ℤ) : ℤ := (width * 4 + 31) / 32 * 32 / 4

/-- `getFrameWidth(frame, plane)`: plane 0 has the clip width; planes 1, 2
are subsampled by `subSamplingW`. -/
def planeWidth (vi : VSVideoInfo) (plane : ℕ) : ℤ :=
  if plane = 0 then vi.width else vi.width / 2 ^ vi.format.subSamplingW

/-- `getFrameHeight(frame, plane)`: plane 0 has the clip height; planes 1, 2
are subsampled by `subSamplingH`. -/
def planeHeight (vi : VSVideoInfo) (plane : ℕ) : ℤ :=
  if plane = 0 then vi.height else vi.height / 2 ^ vi.format.subSamplingH

/-- Geometry of a frame as created by `newVideoFrame` / `newVideoFrame2`. -/
structure FrameSpec where
  format : VSFormat
  width : ℤ
  height : ℤ
  deriving DecidableEq, Repr

/-- The destination frame's geometry (lines 116-132): for `radius = 0`,
`newVideoFrame2(vi->format, vi->width, vi->height, ...)`; otherwise
`newVideoFrame(vi->format, vi->width, vi->height * 2 * temporal_width, ...)`
with `temporal_width = 2 * radius + 1`. -/
def dstFrameSpec (d : BM3DData) : FrameSpec :=
  if d.radius = 0 then
    ⟨d.vi.format, d.vi.width, d.vi.height⟩
  else
    ⟨d.vi.format, d.vi.width, d.vi.height * 2 * (2 * d.radius + 1)⟩

/-! ### The per-thread scratch-buffer pool (`d->buffer`) -/

/-- Worker (thread) identity. -/
abbrev ThreadId := ℕ

/-- An allocated scratch buffer: its identity (pointer) and its allocated
element count. -/
structure PoolEntry where
  ptr : ℕ
  sizeFloats : ℤ
  deriving DecidableEq, Repr

/-- Lines 170-182 / 266-278:
`if (d->buffer.count(tid) == 0) { buffer = vs_aligned_malloc(...); d->buffer.emplace(tid, buffer); } return d->buffer[tid];`
as explicit state passing.  `fresh` is the pointer a new allocation would
return, `sz` the allocation size in floats; returns the buffer handed to
the kernel together with the updated pool. -/
def acquireBuffer (pool : List (ThreadId × PoolEntry)) (tid : ThreadId)
    (fresh : ℕ) (sz : ℤ) : PoolEntry × List (ThreadId × PoolEntry) :=
  match pool.lookup tid with
  | some e => (e, pool)
  | none => (⟨fresh, sz⟩, (tid, (⟨fresh, sz⟩ : PoolEntry)) :: pool)

/-! ### The dispatch trace -/

/-- The arguments of one `bm3d<temporal, chroma, final_>` call, as marshaled
by `BM3DGetFrame`.  `srcPtrs` / `refPtrs` list the plane pointers passed to
the kernel as `(plane, clamped frame index)` pairs in marshaling order;
`hasScratch` records whether the scratch `buffer` argument is non-null. -/
structure KernelArgs where
  temporal : Bool
  chroma : Bool
  final_ : Bool
  dstPlanes : List ℕ
  srcPtrs : List (ℕ × ℤ)
  refPtrs : Option (List (ℕ × ℤ))
  width : ℤ
  height : ℤ
  stride : ℤ
  sigma : List ℚ
  block_step : ℤ
  bm_range : ℤ
  ps_num : ℤ
  ps_range : ℤ
  radius : ℤ
  hasScratch : Bool
  deriving DecidableEq, Repr

/-- An observable memory/dispatch event of the compute phase:
zeroing the worker's scratch buffer (`memset(buffer, 0, ...)`), zeroing a
destination plane (`memset(dstp, 0, ...)`), or a kernel invocation.
Sizes are in `float` elements. -/
inductive Event where
  | zeroScratch (sizeFloats : ℤ)
  | zeroPlane (plane : ℕ) (sizeFloats : ℤ)
  | kernel (args : KernelArgs)
  deriving DecidableEq, Repr

/-- Whether an event is a kernel invocation. -/
def Event.isKernel : Event → Bool
  | Event.kernel _ => true
  | _ => false

/-- The kernel arguments of the joint-chroma call (lines 141-241): all
three planes' pointers for every window frame, plane-0 geometry, the full
`sigma` array, and the plane-0 entries of the tuning parameters. -/
def chromaKernelArgs (d : BM3DData) (n : ℤ) : KernelArgs :=
  { temporal := d.radius != 0
    chroma := true
    final_ := d.hasRef
    dstPlanes := [0, 1, 2]
    srcPtrs := (List.range 3).flatMap (fun plane =>
      (windowIndices n d.radius d.vi.numFrames).map (fun idx => (plane, idx)))
    refPtrs := if d.hasRef then
        some ((List.range 3).flatMap (fun plane =>
          (refWindowIndices n d.radius d.vi.numFrames).map (fun idx => (plane, idx))))
      else none
    width := planeWidth d.vi 0
    height := planeHeight d.vi 0
    stride := vsStride (planeWidth d.vi 0)
    sigma := d.sigma
    block_step := d.block_step.getD 0 0
    bm_range := d.bm_range.getD 0 0
    ps_num := d.ps_num.getD 0 0
    ps_range := d.ps_range.getD 0 0
    radius := d.radius
    hasScratch := d.radius == 0 }

/-- The joint-chroma branch (lines 141-241): zero the scratch buffer
(spatial) or all three stacked destination planes (temporal), then issue
the single kernel call. -/
def chromaEvents (d : BM3DData) (n : ℤ) : List Event :=
  let stride := vsStride (planeWidth d.vi 0)
  let height := planeHeight d.vi 0
  (if d.radius = 0 then
    [Event.zeroScratch (stride * height * 2 * (num_planes true : ℤ))]
  else
    [Event.zeroPlane 0 (stride * height * 2 * (2 * d.radius + 1)),
     Event.zeroPlane 1 (stride * height * 2 * (2 * d.radius + 1)),
     Event.zeroPlane 2 (stride * height * 2 * (2 * d.radius + 1))]) ++
  [Event.kernel (chromaKernelArgs d n)]

/-- The kernel arguments of one per-plane call (lines 245-336): this
plane's pointer for every window frame, this plane's geometry, and this
plane's own `sigma`, `block_step`, `bm_range`, `ps_num`, `ps_range`. -/
def perPlaneKernelArgs (d : BM3DData) (n : ℤ) (plane : ℕ) : KernelArgs :=
  { temporal := d.radius != 0
    chroma := false
    final_ := d.hasRef
    dstPlanes := [plane]
    srcPtrs := (windowIndices n d.radius d.vi.numFrames).map (fun idx => (plane, idx))
    refPtrs := if d.hasRef then
        some ((refWindowIndices n d.radius d.vi.numFrames).map (fun idx => (plane, idx)))
      else none
    width := planeWidth d.vi plane
    height := planeHeight d.vi plane
    stride := vsStride (planeWidth d.vi plane)
    sigma := [d.sigma.getD plane 0]
    block_step := d.block_step.getD plane 0
    bm_range := d.bm_range.getD plane 0
    ps_num := d.ps_num.getD plane 0
    ps_range := d.ps_range.getD plane 0
    radius := d.radius
    hasScratch := d.radius == 0 }

/-- One iteration of the per-plane loop (lines 245-336): skipped entirely
when `process[plane]` is false; otherwise zero the scratch buffer (spatial)
or this plane's stacked destination (temporal), then issue this plane's
kernel call. -/
def planeEvents (d : BM3DData) (n : ℤ) (plane : ℕ) : List Event :=
  if d.process.getD plane false then
    let stride := vsStride (planeWidth d.vi plane)
    let height := planeHeight d.vi plane
    (if d.radius = 0 then
      [Event.zeroScratch (stride * height * 2 * (num_planes false : ℤ))]
    else
      [Event.zeroPlane plane (stride * height * 2 * (2 * d.radius + 1))]) ++
    [Event.kernel (perPlaneKernelArgs d n plane)]
  else []

/-- The compute-phase trace of `BM3DGetFrame` (lines 141-337): the
joint-chroma branch, or the per-plane loop over the format's planes. -/
def getFrameEvents (d : BM3DData) (n : ℤ) : List Event :=
  if d.chroma then chromaEvents d n
  else (List.range d.vi.format.numPlanes).flatMap (fun plane => planeEvents d n plane)

/-! ### Frame properties and spatial passthrough -/

/-- A frame-property value as set by `propSetInt` / `propSetIntArray`. -/
inductive PropValue where
  | intVal (v : ℤ)
  | intArray (vs : List ℤ)
  deriving DecidableEq, Repr

/-- C++ `bool` to `int64_t` conversion. -/
def boolToInt (b : Bool) : ℤ := if b then 1 else 0

/-- The frame properties attached to the produced frame (lines 347-354):
for `radius != 0`, `BM3D_V_radius` (the configured radius) and
`BM3D_V_process` (the three process flags as integers); nothing for
`radius = 0`. -/
def attachedProps (d : BM3DData) : List (String × PropValue) :=
  if d.radius ≠ 0 then
    [("BM3D_V_radius", PropValue.intVal d.radius),
     ("BM3D_V_process", PropValue.intArray
        [boolToInt (d.process.getD 0 false),
         boolToInt (d.process.getD 1 false),
         boolToInt (d.process.getD 2 false)])]
  else []

/-- Contents of plane `plane` of the spatial-mode (`radius = 0`)
destination frame in per-plane mode.  `newVideoFrame2` (lines 116-126)
receives `fr[i] = process[i] ? nullptr : src_frame`: a null entry allocates
a fresh writable plane, which this plane's kernel call then fills; a
non-null entry reuses the source frame's plane without copying.  Plane
contents are abstract tokens; token equality models byte-for-byte
equality. -/
def spatialPerPlaneOutput (d : BM3DData) (srcPlanes kernelOut : ℕ → ℕ)
    (plane : ℕ) : ℕ :=
  if d.process.getD plane false then kernelOut plane else srcPlanes plane

/-! ### Example configurations used as concrete test vectors -/

/-- A 3-plane 4:4:4 32-bit float format. -/
def egFormat444 : VSFormat :=
  { id := pfYUV444PS, sampleType := SampleType.stFloat, bitsPerSample := 32,
    numPlanes := 3, subSamplingW := 0, subSamplingH := 0 }

/-- A 64×32 clip of 10 frames in `egFormat444`. -/
def egVi : VSVideoInfo :=
  { format := egFormat444, width := 64, height := 32, numFrames := 10 }

/-- A spatial (`radius = 0`) per-plane configuration with the middle plane
not processed. -/
def egSpatial : BM3DData :=
  { vi := egVi, hasRef := false, sigma := [1, 0, 1],
    block_step := [8, 8, 8], bm_range := [9, 9, 9], radius := 0,
    ps_num := [2, 2, 2], ps_range := [4, 4, 4], chroma := false,
    process := [true, false, true] }

/-- A temporal (`radius = 1`) per-plane configuration with the middle plane
not processed. -/
def egTemporal : BM3DData :=
  { egSpatial with radius := 1 }

/-- A temporal (`radius = 1`) joint-chroma configuration. -/
def egChromaTemporal : BM3DData :=
  { egSpatial with
      radius := 1
      chroma := true
      sigma := [1, 1, 1]
      process := [true, true, true] }

/-- A construction input whose reference clip has a mismatched width and
whose remaining parameters are all valid. -/
def egCreateIn : CreateInput :=
  { clipVi := egVi
    refVi := some { egVi with width := 32 }
    sigma := [1]
    block_step := [8]
    bm_range := [9]
    radius := some 1
    ps_num := [2]
    ps_range := [4]
    chroma := some 0 }

/-! ### Basic facts about the window -/

theorem stdClamp_eq_max_min (v lo hi : ℤ) (h : lo ≤ hi) :
    stdClamp v lo hi = max lo (min v hi) := by
  simp only [stdClamp]
  split_ifs <;> omega

theorem windowIndices_getD (n R N : ℤ) (k : ℕ) (hk : (k : ℤ) < 2 * R + 1) :
    (windowIndices n R N).getD k 0 = stdClamp (n + ((k : ℤ) - R)) 0 (N - 1) := by
  have hklt : k < (2 * R + 1).toNat := by omega
  simp only [windowIndices, List.getD_eq_getElem?_getD, List.getElem?_map,
    List.getElem?_range, hklt, if_true]
  rfl

theorem requestedIndices_mem (n R N : ℤ) (i : ℤ) :
    i ∈ requestedIndices n R N ↔
      max (n - R) 0 ≤ i ∧ i ≤ min (n + R) (N - 1) := by
  simp only [requestedIndices, List.mem_map, List.mem_range]
  constructor
  · rintro ⟨j, hj, rfl⟩
    omega
  · rintro ⟨h1, h2⟩
    exact ⟨(i - max (n - R) 0).toNat, by omega, by omega⟩

theorem requestedIndices_nodup (n R N : ℤ) :
    (requestedIndices n R N).Nodup := by
  refine List.Nodup.map (fun a b h => ?_) (List.nodup_range _)
  omega

/-! ### Facts about the sigma loop -/

theorem sigmaStep_missing (input : List ℚ) (hasRef : Bool) (i : ℕ) (prev : ℚ)
    (hs : input[i]? = none) :
    sigmaStep input hasRef i prev =
      .ok ((if i = 0 then (3 : ℚ) else prev) * sigmaScale hasRef,
        !((if i = 0 then (3 : ℚ) else prev) * sigmaScale hasRef < floatEpsilon)) := by
  simp only [sigmaStep, hs]

theorem sigmaStep_supplied (input : List ℚ) (hasRef : Bool) (i : ℕ) (prev s : ℚ)
    (r : ℚ × Bool) (hs : input[i]? = some s)
    (h : sigmaStep input hasRef i prev = .ok r) :
    r = (s * sigmaScale hasRef, !(s * sigmaScale hasRef < floatEpsilon)) := by
  simp only [sigmaStep, hs] at h
  split at h
  · exact absurd h (by simp)
  · exact (Except.ok.inj h).symm

theorem sigmaStep_process (input : List ℚ) (hasRef : Bool) (i : ℕ) (prev : ℚ)
    (r : ℚ × Bool) (h : sigmaStep input hasRef i prev = .ok r) :
    r.2 = !(r.1 < floatEpsilon) := by
  cases hs : input[i]? with
  | none =>
      rw [sigmaStep_missing input hasRef i prev hs] at h
      rw [← Except.ok.inj h]
  | some s =>
      rw [sigmaStep_supplied input hasRef i prev s r hs h]

theorem computeSigma_eq (input : List ℚ) (hasRef : Bool) (l : List (ℚ × Bool))
    (h : computeSigma input hasRef = .ok l) :
    ∃ s0 s1 s2,
      l = [s0, s1, s2] ∧
      sigmaStep input hasRef 0 0 = .ok s0 ∧
      sigmaStep input hasRef 1 s0.1 = .ok s1 ∧
      sigmaStep input hasRef 2 s1.1 = .ok s2 := by
  unfold computeSigma at h
  split at h
  · simp at h
  next s0 h0 =>
    split at h
    · simp at h
    next s1 h1 =>
      split at h
      · simp at h
      next s2 h2 =>
        exact ⟨s0, s1, s2, (Except.ok.inj h).symm, h0, h1, h2⟩

/-! ### Facts about the scratch pool -/

theorem acquireBuffer_self_lookup (pool : List (ThreadId × PoolEntry))
    (tid : ThreadId) (fresh : ℕ) (sz : ℤ) :
    ((acquireBuffer pool tid fresh sz).2).lookup tid =
      some (acquireBuffer pool tid fresh sz).1 := by
  unfold acquireBuffer
  cases h : pool.lookup tid with
  | some e => simp [h]
  | none => simp [h, List.lookup]

theorem acquireBuffer_of_lookup (pool : List (ThreadId × PoolEntry))
    (tid : ThreadId) (fresh : ℕ) (sz : ℤ) (e : PoolEntry)
    (h : pool.lookup tid = some e) :
    acquireBuffer pool tid fresh sz = (e, pool) := by
  simp [acquireBuffer, h]

/-! ### Facts about the dispatch trace -/

theorem filter_flatMap (l : List ℕ) (f : ℕ → List Event) (P : Event → Bool) :
    (l.flatMap f).filter P = l.flatMap (fun x => (f x).filter P) := by
  induction l with
  | nil => rfl
  | cons a t ih => simp [List.flatMap_cons, List.filter_append, ih]

theorem flatMap_if_singleton (l : List ℕ) (P : ℕ → Bool) (g : ℕ → Event) :
    (l.flatMap (fun x => if P x then [g x] else [])) = (l.filter P).map g := by
  induction l with
  | nil => rfl
  | cons a t ih =>
      by_cases h : P a <;> simp [List.flatMap_cons, List.filter_cons, h, ih]

theorem chromaEvents_filter_isKernel (d : BM3DData) (n : ℤ) :
    (chromaEvents d n).filter Event.isKernel =
      [Event.kernel (chromaKernelArgs d n)] := by
  unfold chromaEvents
  split <;> simp [Event.isKernel]

theorem planeEvents_filter_isKernel (d : BM3DData) (n : ℤ) (plane : ℕ) :
    (planeEvents d n plane).filter Event.isKernel =
      if d.process.getD plane false then
        [Event.kernel (perPlaneKernelArgs d n plane)]
      else [] := by
  unfold planeEvents
  split
  next hp =>
    rcases eq_or_ne d.radius 0 with h | h <;> simp [h, Event.isKernel]
  next hp => rfl

theorem getFrameEvents_filter_chroma (d : BM3DData) (n : ℤ)
    (hc : d.chroma = true) :
    (getFrameEvents d n).filter Event.isKernel =
      [Event.kernel (chromaKernelArgs d n)] := by
  rw [getFrameEvents, hc]
  exact chromaEvents_filter_isKernel d n

theorem getFrameEvents_filter_perPlane (d : BM3DData) (n : ℤ)
    (hc : d.chroma = false) :
    (getFrameEvents d n).filter Event.isKernel =
      ((List.range d.vi.format.numPlanes).filter
        (fun p => d.process.getD p false)).map
        (fun p => Event.kernel (perPlaneKernelArgs d n p)) := by
  rw [getFrameEvents, hc]
  rw [if_neg (by simp)]
  rw [filter_flatMap]
  simp only [planeEvents_filter_isKernel]
  exact flatMap_if_singleton _ _ _

theorem kernel_mem_planeEvents (d : BM3DData) (n : ℤ) (plane : ℕ)
    (a : KernelArgs) :
    Event.kernel a ∈ planeEvents d n plane ↔
      d.process.getD plane false = true ∧ a = perPlaneKernelArgs d n plane := by
  unfold planeEvents
  split
  next hp => split <;> simp_all
  next hp => simp_all

theorem kernel_mem_chroma (d : BM3DData) (n : ℤ) (a : KernelArgs)
    (hc : d.chroma = true) :
    Event.kernel a ∈ getFrameEvents d n ↔ a = chromaKernelArgs d n := by
  rw [getFrameEvents, hc, if_pos rfl]
  unfold chromaEvents
  rcases eq_or_ne d.radius 0 with h | h <;> simp [h]

theorem kernel_mem_perPlane (d : BM3DData) (n : ℤ) (a : KernelArgs)
    (hc : d.chroma = false) :
    Event.kernel a ∈ getFrameEvents d n ↔
      ∃ p, p < d.vi.format.numPlanes ∧ d.process.getD p false = true ∧
        a = perPlaneKernelArgs d n p := by
  rw [getFrameEvents, hc, if_neg (by simp)]
  simp only [List.mem_flatMap, List.mem_range, kernel_mem_planeEvents]

theorem zeroPlane_mem_planeEvents (d : BM3DData) (n : ℤ) (q p : ℕ) (s : ℤ)
    (h : Event.zeroPlane p s ∈ planeEvents d n q) :
    d.process.getD q false = true ∧ p = q := by
  unfold planeEvents at h
  split at h
  next hp =>
    refine ⟨hp, ?_⟩
    split at h
    · simp at h
    · simp at h
      exact h.1
  next hp => simp at h

/-- In a trace that concatenates per-plane blocks, each of which is empty
or a zeroing event directly followed by a kernel call related to it by `R`,
every kernel call at position `k` has its zeroing event at position
`k - 1`. -/
theorem flatMap_blocks_kernel_prec (L : List ℕ) (f : ℕ → List Event)
    (R : Event → KernelArgs → Prop)
    (hf : ∀ p ∈ L, f p = [] ∨ ∃ z a, f p = [z, Event.kernel a] ∧
      z.isKernel = false ∧ R z a) :
    ∀ k a, (L.flatMap f)[k]? = some (Event.kernel a) →
      1 ≤ k ∧ ∃ z, (L.flatMap f)[k - 1]? = some z ∧ R z a := by
  induction L with
  | nil => intro k a h; simp at h
  | cons p t ih =>
      have ht : ∀ q ∈ t, f q = [] ∨ ∃ z a, f q = [z, Event.kernel a] ∧
          z.isKernel = false ∧ R z a :=
        fun q hq => hf q (List.mem_cons_of_mem p hq)
      intro k a h
      rcases hf p (List.mem_cons_self p t) with hp | ⟨z, b, hp, hz, hR⟩
      · rw [List.flatMap_cons, hp, List.nil_append] at h
        obtain ⟨h1, z2, hz2, hR2⟩ := ih ht k a h
        refine ⟨h1, z2, ?_, hR2⟩
        rw [List.flatMap_cons, hp, List.nil_append]
        exact hz2
      · rw [List.flatMap_cons, hp] at h
        simp only [List.cons_append, List.nil_append] at h
        rcases k with _ | k
        · rw [List.getElem?_cons_zero, Option.some.injEq] at h
          rw [h] at hz
          simp [Event.isKernel] at hz
        rcases k with _ | m
        · rw [List.getElem?_cons_succ, List.getElem?_cons_zero,
            Option.some.injEq, Event.kernel.injEq] at h
          refine ⟨le_refl 1, z, ?_, ?_⟩
          · rw [List.flatMap_cons, hp]
            simp only [List.cons_append, List.nil_append]
            rfl
          · rw [h] at hR
            exact hR
        · rw [List.getElem?_cons_succ, List.getElem?_cons_succ] at h
          obtain ⟨h1, z2, hz2, hR2⟩ := ih ht m a h
          refine ⟨by omega, z2, ?_, hR2⟩
          rw [List.flatMap_cons, hp]
          simp only [List.cons_append, List.nil_append]
          obtain ⟨m0, rfl⟩ : ∃ m0, m = m0 + 1 := ⟨m - 1, by omega⟩
          rw [show m0 + 1 + 1 + 1 - 1 = m0 + 1 + 1 from rfl,
            List.getElem?_cons_succ, List.getElem?_cons_succ]
          exact hz2

/-! ### Facts about BM3DCreate under valid parameters -/

theorem sigmaStep_ok (input : List ℚ) (hasRef : Bool) (i : ℕ) (prev : ℚ)
    (hs : ∀ x ∈ input, 0 ≤ x) :
    ∃ r, sigmaStep input hasRef i prev = .ok r := by
  cases h : input[i]? with
  | none => exact ⟨_, sigmaStep_missing input hasRef i prev h⟩
  | some s =>
      have hx : ¬ s < 0 := not_lt.mpr (hs s (List.getElem?_mem h))
      exact ⟨(s * sigmaScale hasRef, !(s * sigmaScale hasRef < floatEpsilon)),
        by simp [sigmaStep, h, hx]⟩

theorem computeSigma_ok (input : List ℚ) (hasRef : Bool)
    (hs : ∀ x ∈ input, 0 ≤ x) :
    ∃ l, computeSigma input hasRef = .ok l := by
  obtain ⟨s0, h0⟩ := sigmaStep_ok input hasRef 0 0 hs
  obtain ⟨s1, h1⟩ := sigmaStep_ok input hasRef 1 s0.1 hs
  obtain ⟨s2, h2⟩ := sigmaStep_ok input hasRef 2 s1.1 hs
  exact ⟨[s0, s1, s2], by simp only [computeSigma, h0, h1, h2]⟩

theorem intParamStep_ok (input : List ℤ) (dflt : ℤ) (invalid : ℤ → Prop)
    [DecidablePred invalid] (err : String) (i : ℕ) (prev : ℤ)
    (hv : ∀ x ∈ input, ¬ invalid x) :
    ∃ r, intParamStep input dflt invalid err i prev = .ok r := by
  cases h : input[i]? with
  | none => exact ⟨if i = 0 then dflt else prev, by simp [intParamStep, h]⟩
  | some v => exact ⟨v, by simp [intParamStep, h, hv v (List.getElem?_mem h)]⟩

theorem computeIntParam_ok (input : List ℤ) (dflt : ℤ) (invalid : ℤ → Prop)
    [DecidablePred invalid] (err : String)
    (hv : ∀ x ∈ input, ¬ invalid x) :
    ∃ l, computeIntParam input dflt invalid err = .ok l := by
  obtain ⟨v0, h0⟩ := intParamStep_ok input dflt invalid err 0 0 hv
  obtain ⟨v1, h1⟩ := intParamStep_ok input dflt invalid err 1 v0 hv
  obtain ⟨v2, h2⟩ := intParamStep_ok input dflt invalid err 2 v1 hv
  exact ⟨[v0, v1, v2], by simp only [computeIntParam, h0, h1, h2]⟩

theorem readRadius_ok (o : Option ℤ) (hr : ∀ r, o = some r → 0 ≤ r) :
    ∃ v, readRadius o = .ok v := by
  cases o with
  | none => exact ⟨0, rfl⟩
  | some r => exact ⟨r, by simp [readRadius, not_lt.mpr (hr r rfl)]⟩

theorem readChroma_ok (o : Option ℤ) (vi : VSVideoInfo)
    (hch : o = none ∨ o = some 0 ∨ vi.format.id = pfYUV444PS) :
    ∃ b, readChroma o vi = .ok b := by
  rcases hch with h | h | h
  · subst h; exact ⟨false, by simp [readChroma]⟩
  · subst h; exact ⟨false, by simp [readChroma]⟩
  · cases o with
    | none => exact ⟨false, by simp [readChroma]⟩
    | some c => exact ⟨c != 0, by simp [readChroma, h]⟩

theorem checkClipFormat_ok (vi : VSVideoInfo)
    (h1 : isConstantFormat vi = true)
    (h2 : vi.format.sampleType = SampleType.stFloat)
    (h3 : vi.format.bitsPerSample = 32) :
    checkClipFormat vi = .ok () := by
  simp [checkClipFormat, h1, h2, h3]

theorem BM3DCreate_failure_shape (inp : CreateInput) :
    ∀ msg c r, BM3DCreate inp = CreateOutcome.failure msg c r →
      c = true ∧ r = true ∧ ∀ d2, BM3DCreate inp ≠ CreateOutcome.success d2 := by
  intro msg c r h
  cases he : BM3DCreateE inp with
  | error e =>
      simp only [BM3DCreate, he] at h ⊢
      obtain ⟨_, hc, hr⟩ := CreateOutcome.failure.inj h
      exact ⟨hc.symm, hr.symm, by simp⟩
  | ok dd =>
      simp only [BM3DCreate, he] at h
      exact absurd h (by simp)

/-! ## Claim theorems -/

/-- **C1**: for a requested index `n` (0 ≤ n < N) and radius `R ≥ 0`, the
announce phase requests exactly the distinct indices of
`[max(n-R,0), min(n+R,N-1)]` (and the same indices on the reference node);
the fetch phase builds `2R+1` entries where the entry for offset
`i ∈ [-R, R]` (list position `i+R`) is `clamp(n+i, 0, N-1)`, the center
entry (position `R`) being `n` itself; the reference window uses the same
clamped indices. -/
theorem C1_window_construction (n R N : ℤ) (hn0 : 0 ≤ n) (hnN : n < N) (hR : 0 ≤ R) :
    ((requestedIndices n R N).Nodup ∧
      ∀ i : ℤ, i ∈ requestedIndices n R N ↔
        max (n - R) 0 ≤ i ∧ i ≤ min (n + R) (N - 1)) ∧
    refRequestedIndices n R N = requestedIndices n R N ∧
    ((windowIndices n R N).length : ℤ) = 2 * R + 1 ∧
    (∀ i : ℤ, -R ≤ i → i ≤ R →
      (windowIndices n R N).getD (i + R).toNat 0 = max 0 (min (n + i) (N - 1))) ∧
    (windowIndices n R N).getD R.toNat 0 = n ∧
    refWindowIndices n R N = windowIndices n R N := by
  refine ⟨⟨requestedIndices_nodup n R N, requestedIndices_mem n R N⟩, rfl, ?_, ?_, ?_, rfl⟩
  · simp only [windowIndices, List.length_map, List.length_range]
    omega
  · intro i h1 h2
    rw [windowIndices_getD n R N (i + R).toNat (by omega),
      stdClamp_eq_max_min _ _ _ (by omega)]
    omega
  · rw [windowIndices_getD n R N R.toNat (by omega),
      stdClamp_eq_max_min _ _ _ (by omega)]
    omega

/-- Witness for C1 at `n = 1`, `R = 2`, `N = 3`. -/
theorem C1_window_construction_witness :
    (0 : ℤ) ≤ 1 ∧ (1 : ℤ) < 3 ∧ (0 : ℤ) ≤ 2 ∧
    (((requestedIndices 1 2 3).Nodup ∧
      ∀ i : ℤ, i ∈ requestedIndices 1 2 3 ↔
        max (1 - 2) 0 ≤ i ∧ i ≤ min (1 + 2) (3 - 1)) ∧
    refRequestedIndices 1 2 3 = requestedIndices 1 2 3 ∧
    ((windowIndices 1 2 3).length : ℤ) = 2 * 2 + 1 ∧
    (∀ i : ℤ, -2 ≤ i → i ≤ 2 →
      (windowIndices 1 2 3).getD (i + 2).toNat 0 = max 0 (min (1 + i) (3 - 1))) ∧
    (windowIndices 1 2 3).getD (2 : ℤ).toNat 0 = 1 ∧
    refWindowIndices 1 2 3 = windowIndices 1 2 3) :=
  ⟨by decide, by decide, by decide,
    C1_window_construction 1 2 3 (by decide) (by decide) (by decide)⟩

/-- Counterexample to **C4** as stated: with `sigma = [3]` and no reference,
the missing `sigma[1]` replicates the *already scaled* stored value
`3 * 216/425 = 648/425` and is then scaled again, giving `139968/180625`,
which differs from the previous entry's effective scaled value `648/425`
(the claim asserts they are equal). -/
theorem C4_counterexample :
    computeSigma [3] false =
      .ok [(648 / 425, true), (139968 / 180625, true), (30233088 / 76765625, true)] ∧
    (139968 / 180625 : ℚ) ≠ 648 / 425 := by
  constructor
  · norm_num [computeSigma, sigmaStep, sigmaScale, floatEpsilon]
  · norm_num

/-- **C4** (amended): a supplied `sigma[i]` is scaled exactly once by
`sigmaScale`; a missing `sigma[0]` defaults to `3` and is scaled once; a
missing `sigma[i]` (`i > 0`) replicates the previous entry's *stored,
already scaled* value and is scaled again, so its effective value equals
the previous entry's effective value multiplied once more by the
normalization constant. -/
theorem C4_sigma_scaling (input : List ℚ) (hasRef : Bool) (l : List (ℚ × Bool))
    (h : computeSigma input hasRef = .ok l) :
    l.length = 3 ∧
    (∀ i : ℕ, i < 3 → ∀ s : ℚ, input[i]? = some s →
      (l.getD i (0, false)).1 = s * sigmaScale hasRef) ∧
    (input[0]? = none → (l.getD 0 (0, false)).1 = 3 * sigmaScale hasRef) ∧
    (∀ i : ℕ, 1 ≤ i → i < 3 → input[i]? = none →
      (l.getD i (0, false)).1 = (l.getD (i - 1) (0, false)).1 * sigmaScale hasRef) := by
  obtain ⟨s0, s1, s2, rfl, h0, h1, h2⟩ := computeSigma_eq input hasRef l h
  refine ⟨rfl, ?_, ?_, ?_⟩
  · intro i hi s hs
    interval_cases i
    · rw [List.getD_cons_zero, sigmaStep_supplied input hasRef 0 0 s s0 hs h0]
    · rw [List.getD_cons_succ, List.getD_cons_zero,
        sigmaStep_supplied input hasRef 1 s0.1 s s1 hs h1]
    · rw [List.getD_cons_succ, List.getD_cons_succ, List.getD_cons_zero,
        sigmaStep_supplied input hasRef 2 s1.1 s s2 hs h2]
  · intro hs
    rw [sigmaStep_missing input hasRef 0 0 hs] at h0
    rw [List.getD_cons_zero, ← Except.ok.inj h0]
    norm_num
  · intro i h1i h3i hs
    interval_cases i
    · rw [sigmaStep_missing input hasRef 1 s0.1 hs] at h1
      rw [show (1 : ℕ) - 1 = 0 from rfl, List.getD_cons_succ, List.getD_cons_zero,
        List.getD_cons_zero, ← Except.ok.inj h1]
      norm_num
    · rw [sigmaStep_missing input hasRef 2 s1.1 hs] at h2
      rw [show (2 : ℕ) - 1 = 1 from rfl, List.getD_cons_succ, List.getD_cons_succ,
        List.getD_cons_succ, List.getD_cons_zero, List.getD_cons_zero,
        ← Except.ok.inj h2]
      norm_num

/-- Witness for C4 (amended) at `sigma = [2, 2, 2]`, no reference. -/
theorem C4_sigma_scaling_witness :
    computeSigma [2, 2, 2] false =
      .ok [(432 / 425, true), (432 / 425, true), (432 / 425, true)] ∧
    (([((432 : ℚ) / 425, true), (432 / 425, true), (432 / 425, true)] :
        List (ℚ × Bool)).length = 3 ∧
    (∀ i : ℕ, i < 3 → ∀ s : ℚ, ([2, 2, 2] : List ℚ)[i]? = some s →
      (([((432 : ℚ) / 425, true), (432 / 425, true), (432 / 425, true)] :
        List (ℚ × Bool)).getD i (0, false)).1 = s * sigmaScale false) ∧
    (([2, 2, 2] : List ℚ)[0]? = none →
      (([((432 : ℚ) / 425, true), (432 / 425, true), (432 / 425, true)] :
        List (ℚ × Bool)).getD 0 (0, false)).1 = 3 * sigmaScale false) ∧
    (∀ i : ℕ, 1 ≤ i → i < 3 → ([2, 2, 2] : List ℚ)[i]? = none →
      (([((432 : ℚ) / 425, true), (432 / 425, true), (432 / 425, true)] :
        List (ℚ × Bool)).getD i (0, false)).1 =
      (([((432 : ℚ) / 425, true), (432 / 425, true), (432 / 425, true)] :
        List (ℚ × Bool)).getD (i - 1) (0, false)).1 * sigmaScale false)) :=
  have h : computeSigma [2, 2, 2] false =
      .ok [(432 / 425, true), (432 / 425, true), (432 / 425, true)] := by
    norm_num [computeSigma, sigmaStep, sigmaScale, floatEpsilon]
  ⟨h, C4_sigma_scaling [2, 2, 2] false _ h⟩

/-- Counterexample to **C5** as stated: an input sigma of `425/1811939328`
(no reference) scales to exactly `floatEpsilon`; the code's test is
`!(sigma < epsilon)`, so the flag is `true`, while the claim asserts that a
scaled sigma exactly equal to machine epsilon yields `false`. -/
theorem C5_counterexample :
    (computeSigma [425 / 1811939328] false).toOption.map
        (fun l => l.getD 0 (0, false)) = some (floatEpsilon, true) ∧
    ¬ (floatEpsilon < floatEpsilon) := by
  constructor
  · norm_num [computeSigma, sigmaStep, sigmaScale, floatEpsilon]
    exact ⟨_, rfl, rfl⟩
  · exact lt_irrefl _

/-- **C5** (amended): the derived flag `process[i]` is true iff the scaled
`sigma[i]` is greater than **or equal to** machine epsilon (the code tests
`!(sigma < epsilon)`). -/
theorem C5_process_flags (input : List ℚ) (hasRef : Bool) (l : List (ℚ × Bool))
    (h : computeSigma input hasRef = .ok l) :
    ∀ i : ℕ, i < 3 →
      ((l.getD i (0, false)).2 = true ↔ floatEpsilon ≤ (l.getD i (0, false)).1) := by
  obtain ⟨s0, s1, s2, rfl, h0, h1, h2⟩ := computeSigma_eq input hasRef l h
  intro i hi
  interval_cases i
  · rw [List.getD_cons_zero, sigmaStep_process input hasRef 0 0 s0 h0]
    simp [not_lt]
  · rw [List.getD_cons_succ, List.getD_cons_zero,
      sigmaStep_process input hasRef 1 s0.1 s1 h1]
    simp [not_lt]
  · rw [List.getD_cons_succ, List.getD_cons_succ, List.getD_cons_zero,
      sigmaStep_process input hasRef 2 s1.1 s2 h2]
    simp [not_lt]

/-- Witness for C5 (amended) at `sigma = [2, 2, 2]`, no reference. -/
theorem C5_process_flags_witness :
    computeSigma [2, 2, 2] false =
      .ok [(432 / 425, true), (432 / 425, true), (432 / 425, true)] ∧
    (∀ i : ℕ, i < 3 →
      ((([((432 : ℚ) / 425, true), (432 / 425, true), (432 / 425, true)] :
          List (ℚ × Bool)).getD i (0, false)).2 = true ↔
        floatEpsilon ≤
          (([((432 : ℚ) / 425, true), (432 / 425, true), (432 / 425, true)] :
            List (ℚ × Bool)).getD i (0, false)).1)) :=
  have h : computeSigma [2, 2, 2] false =
      .ok [(432 / 425, true), (432 / 425, true), (432 / 425, true)] := by
    norm_num [computeSigma, sigmaStep, sigmaScale, floatEpsilon]
  ⟨h, C5_process_flags [2, 2, 2] false _ h⟩

/-- **C2**: for `radius = 0` the produced frame has exactly the input's
format and dimensions, and the advertised video info is the input's; for
`radius > 0` the produced frame and the advertised video info have height
`2*(2*radius+1)` times the input height, with format, width, and per-row
stride unchanged. -/
theorem C2_output_geometry (d : BM3DData) :
    (d.radius = 0 →
      dstFrameSpec d = ⟨d.vi.format, d.vi.width, d.vi.height⟩ ∧
      BM3DInit d = d.vi) ∧
    (0 < d.radius →
      (dstFrameSpec d).format = d.vi.format ∧
      (dstFrameSpec d).width = d.vi.width ∧
      (dstFrameSpec d).height = 2 * (2 * d.radius + 1) * d.vi.height ∧
      vsStride (dstFrameSpec d).width = vsStride d.vi.width ∧
      (BM3DInit d).format = d.vi.format ∧
      (BM3DInit d).width = d.vi.width ∧
      (BM3DInit d).height = 2 * (2 * d.radius + 1) * d.vi.height) := by
  constructor
  · intro h
    simp [dstFrameSpec, BM3DInit, h]
  · intro h
    have hne : d.radius ≠ 0 := by omega
    refine ⟨?_, ?_, ?_, ?_, ?_, ?_, ?_⟩ <;> simp [dstFrameSpec, BM3DInit, hne] <;> ring

/-- Witness for C2 at a spatial and a temporal configuration. -/
theorem C2_output_geometry_witness :
    egSpatial.radius = 0 ∧ (0 : ℤ) < egTemporal.radius ∧
    (dstFrameSpec egSpatial =
        ⟨egSpatial.vi.format, egSpatial.vi.width, egSpatial.vi.height⟩ ∧
      BM3DInit egSpatial = egSpatial.vi) ∧
    ((dstFrameSpec egTemporal).format = egTemporal.vi.format ∧
      (dstFrameSpec egTemporal).width = egTemporal.vi.width ∧
      (dstFrameSpec egTemporal).height =
        2 * (2 * egTemporal.radius + 1) * egTemporal.vi.height ∧
      vsStride (dstFrameSpec egTemporal).width = vsStride egTemporal.vi.width ∧
      (BM3DInit egTemporal).format = egTemporal.vi.format ∧
      (BM3DInit egTemporal).width = egTemporal.vi.width ∧
      (BM3DInit egTemporal).height =
        2 * (2 * egTemporal.radius + 1) * egTemporal.vi.height) :=
  ⟨rfl, by decide, (C2_output_geometry egSpatial).1 rfl,
    (C2_output_geometry egTemporal).2 (by decide)⟩

/-- **C6**: each frame production invokes exactly one kernel variant,
selected by temporal = (radius ≠ 0), joint-chroma = chroma flag,
reference-guided = (reference configured); spatial calls carry the scratch
buffer and temporal calls a null one; joint-chroma mode issues a single
call naming all three planes with every window frame's pointers for each,
using `sigma[0..2]` and the group-0 `block_step`/`bm_range`/`ps_num`/
`ps_range`; per-plane mode issues one call per processed plane with that
plane's own parameters, and none for planes with `process = false`. -/
theorem C6_variant_dispatch (d : BM3DData) (n : ℤ) :
    (∀ a, Event.kernel a ∈ getFrameEvents d n →
      a.temporal = (d.radius != 0) ∧ a.chroma = d.chroma ∧
      a.final_ = d.hasRef ∧ a.hasScratch = (d.radius == 0)) ∧
    (d.chroma = true →
      (getFrameEvents d n).filter Event.isKernel =
        [Event.kernel (chromaKernelArgs d n)] ∧
      (chromaKernelArgs d n).dstPlanes = [0, 1, 2] ∧
      (chromaKernelArgs d n).srcPtrs =
        (List.range 3).flatMap (fun plane =>
          (windowIndices n d.radius d.vi.numFrames).map (fun idx => (plane, idx))) ∧
      (chromaKernelArgs d n).sigma = d.sigma ∧
      (chromaKernelArgs d n).block_step = d.block_step.getD 0 0 ∧
      (chromaKernelArgs d n).bm_range = d.bm_range.getD 0 0 ∧
      (chromaKernelArgs d n).ps_num = d.ps_num.getD 0 0 ∧
      (chromaKernelArgs d n).ps_range = d.ps_range.getD 0 0) ∧
    (d.chroma = false →
      (getFrameEvents d n).filter Event.isKernel =
        ((List.range d.vi.format.numPlanes).filter
          (fun p => d.process.getD p false)).map
          (fun p => Event.kernel (perPlaneKernelArgs d n p)) ∧
      ∀ p : ℕ,
        (perPlaneKernelArgs d n p).dstPlanes = [p] ∧
        (perPlaneKernelArgs d n p).srcPtrs =
          (windowIndices n d.radius d.vi.numFrames).map (fun idx => (p, idx)) ∧
        (perPlaneKernelArgs d n p).sigma = [d.sigma.getD p 0] ∧
        (perPlaneKernelArgs d n p).block_step = d.block_step.getD p 0 ∧
        (perPlaneKernelArgs d n p).bm_range = d.bm_range.getD p 0 ∧
        (perPlaneKernelArgs d n p).ps_num = d.ps_num.getD p 0 ∧
        (perPlaneKernelArgs d n p).ps_range = d.ps_range.getD p 0) := by
  refine ⟨?_, ?_, ?_⟩
  · intro a ha
    cases hc : d.chroma with
    | true =>
        rw [(kernel_mem_chroma d n a hc).mp ha]
        exact ⟨rfl, rfl, rfl, rfl⟩
    | false =>
        obtain ⟨p, _, _, rfl⟩ := (kernel_mem_perPlane d n a hc).mp ha
        exact ⟨rfl, rfl, rfl, rfl⟩
  · intro hc
    exact ⟨getFrameEvents_filter_chroma d n hc, rfl, rfl, rfl, rfl, rfl, rfl, rfl⟩
  · intro hc
    exact ⟨getFrameEvents_filter_perPlane d n hc,
      fun p => ⟨rfl, rfl, rfl, rfl, rfl, rfl, rfl⟩⟩

/-- Witness for C6 at the temporal joint-chroma configuration, frame 3. -/
theorem C6_variant_dispatch_witness :
    egChromaTemporal.chroma = true ∧
    (getFrameEvents egChromaTemporal 3).filter Event.isKernel =
      [Event.kernel (chromaKernelArgs egChromaTemporal 3)] ∧
    (chromaKernelArgs egChromaTemporal 3).dstPlanes = [0, 1, 2] :=
  ⟨rfl, ((C6_variant_dispatch egChromaTemporal 3).2.1 rfl).1,
    ((C6_variant_dispatch egChromaTemporal 3).2.1 rfl).2.1⟩

/-- **C7**: in spatial per-plane mode, a plane with `process = false` is
produced as a direct alias of the corresponding source plane (byte-for-byte
identical content), and no kernel call names that plane as a destination. -/
theorem C7_passthrough (d : BM3DData) (n : ℤ) (srcPlanes kernelOut : ℕ → ℕ)
    (plane : ℕ) (_h0 : d.radius = 0) (hc : d.chroma = false)
    (hp : d.process.getD plane false = false) :
    spatialPerPlaneOutput d srcPlanes kernelOut plane = srcPlanes plane ∧
    ∀ a, Event.kernel a ∈ getFrameEvents d n → plane ∉ a.dstPlanes := by
  constructor
  · show (if d.process.getD plane false then kernelOut plane else srcPlanes plane) =
      srcPlanes plane
    rw [hp]
    rfl
  · intro a ha
    obtain ⟨p, _, hproc, rfl⟩ := (kernel_mem_perPlane d n a hc).mp ha
    show plane ∉ [p]
    simp only [List.mem_singleton]
    rintro rfl
    rw [hp] at hproc
    simp at hproc

/-- Witness for C7 at the spatial configuration, plane 1. -/
theorem C7_passthrough_witness :
    egSpatial.radius = 0 ∧ egSpatial.chroma = false ∧
    egSpatial.process.getD 1 false = false ∧
    (spatialPerPlaneOutput egSpatial (fun _ => 7) (fun _ => 9) 1 = 7 ∧
      ∀ a, Event.kernel a ∈ getFrameEvents egSpatial 0 → 1 ∉ a.dstPlanes) :=
  ⟨rfl, rfl, rfl,
    C7_passthrough egSpatial 0 (fun _ => 7) (fun _ => 9) 1 rfl rfl rfl⟩

/-- **C8**: for `radius > 0` exactly two metadata entries are attached:
`BM3D_V_radius` equal to the configured radius, and `BM3D_V_process` equal
to the ordered array `[process[0], process[1], process[2]]` encoded as
0/1 integers; for `radius = 0` no metadata is attached. -/
theorem C8_metadata (d : BM3DData) :
    (0 < d.radius →
      attachedProps d =
        [("BM3D_V_radius", PropValue.intVal d.radius),
         ("BM3D_V_process", PropValue.intArray
            ([d.process.getD 0 false, d.process.getD 1 false,
              d.process.getD 2 false].map boolToInt))] ∧
      (attachedProps d).length = 2) ∧
    (d.radius = 0 → attachedProps d = []) := by
  constructor
  · intro h
    have hne : d.radius ≠ 0 := by omega
    simp [attachedProps, hne]
  · intro h
    simp [attachedProps, h]

/-- Witness for C8 at the temporal and the spatial configurations. -/
theorem C8_metadata_witness :
    (0 : ℤ) < egTemporal.radius ∧ egSpatial.radius = 0 ∧
    (attachedProps egTemporal =
      [("BM3D_V_radius", PropValue.intVal egTemporal.radius),
       ("BM3D_V_process", PropValue.intArray
          ([egTemporal.process.getD 0 false, egTemporal.process.getD 1 false,
            egTemporal.process.getD 2 false].map boolToInt))] ∧
      (attachedProps egTemporal).length = 2) ∧
    attachedProps egSpatial = [] :=
  ⟨by decide, rfl, (C8_metadata egTemporal).1 (by decide),
    (C8_metadata egSpatial).2 rfl⟩

/-- **C10**: with `chroma = true` the kernel is invoked on all three planes
for every produced frame regardless of the `process` flags: replacing the
process flags by any other values leaves the dispatch trace unchanged, and
the trace contains exactly one kernel call covering planes 0, 1, 2. -/
theorem C10_chroma_ignores_process (d : BM3DData) (n : ℤ) (ps : List Bool)
    (hc : d.chroma = true) :
    getFrameEvents { d with process := ps } n = getFrameEvents d n ∧
    (getFrameEvents d n).filter Event.isKernel =
      [Event.kernel (chromaKernelArgs d n)] ∧
    (chromaKernelArgs d n).dstPlanes = [0, 1, 2] := by
  refine ⟨?_, getFrameEvents_filter_chroma d n hc, rfl⟩
  have hc2 : ({ d with process := ps } : BM3DData).chroma = true := hc
  rw [getFrameEvents, getFrameEvents, hc2]
  rfl

/-- Witness for C10: the temporal joint-chroma configuration with all
process flags forced to false still issues the full kernel call. -/
theorem C10_chroma_ignores_process_witness :
    egChromaTemporal.chroma = true ∧
    (getFrameEvents { egChromaTemporal with process := [false, false, false] } 2 =
        getFrameEvents egChromaTemporal 2 ∧
      (getFrameEvents egChromaTemporal 2).filter Event.isKernel =
        [Event.kernel (chromaKernelArgs egChromaTemporal 2)] ∧
      (chromaKernelArgs egChromaTemporal 2).dstPlanes = [0, 1, 2]) :=
  ⟨rfl, C10_chroma_ignores_process egChromaTemporal 2 [false, false, false] rfl⟩

/-- Counterexample to **C3** as stated: in temporal per-plane mode
(`egTemporal`: radius 1, `process = [true, false, true]`) the compute phase
performs kernel invocations (two of them), yet plane 1 of the stacked
destination buffer is never zero-initialized, contradicting "all layers of
the stacked destination buffer (every plane, ...) are zero-initialized
before any kernel invocation". -/
theorem C3_counterexample :
    egTemporal.radius ≠ 0 ∧
    ((getFrameEvents egTemporal 5).filter Event.isKernel).length = 2 ∧
    (getFrameEvents egTemporal 5).all
      (fun e => match e with
        | Event.zeroPlane 1 _ => false
        | _ => true) = true := by
  refine ⟨by decide, ?_, ?_⟩
  · decide
  · decide

/-- **C3** (amended): (i) the scratch pool hands the same worker the same
buffer object on repeated acquisitions without modifying the pool, and an
existing worker's buffer is never dropped or replaced; (ii) in spatial
mode (`radius = 0`) every kernel call is immediately preceded by zeroing
of the scratch buffer of `stride * height * 2 * planeGroupSize` floats and
carries the scratch buffer; (iii) in temporal joint-chroma mode all three
stacked planes are zeroed, in order, directly before the single kernel
call; (iv) in temporal per-plane mode each processed plane's stacked
destination (`stride * height * 2 * (2*radius+1)` floats) is zeroed
immediately before that plane's own kernel call — not before *all* kernel
invocations — and (v) a plane with `process = false` is never zeroed at
all. -/
theorem C3_buffer_zeroing (d : BM3DData) (n : ℤ) :
    (∀ (pool : List (ThreadId × PoolEntry)) (tid : ThreadId) (f1 : ℕ) (s1 : ℤ)
        (f2 : ℕ) (s2 : ℤ),
      acquireBuffer (acquireBuffer pool tid f1 s1).2 tid f2 s2 =
        ((acquireBuffer pool tid f1 s1).1, (acquireBuffer pool tid f1 s1).2)) ∧
    (∀ (pool : List (ThreadId × PoolEntry)) (tid tid2 : ThreadId) (f : ℕ)
        (s : ℤ) (e : PoolEntry),
      pool.lookup tid2 = some e →
      ((acquireBuffer pool tid f s).2).lookup tid2 = some e) ∧
    (d.radius = 0 →
      ∀ k a, (getFrameEvents d n)[k]? = some (Event.kernel a) →
        1 ≤ k ∧
        (getFrameEvents d n)[k - 1]? =
          some (Event.zeroScratch
            (a.stride * a.height * 2 * (num_planes d.chroma : ℤ))) ∧
        a.hasScratch = true) ∧
    (d.radius ≠ 0 → d.chroma = true →
      getFrameEvents d n =
        [Event.zeroPlane 0 (vsStride (planeWidth d.vi 0) * planeHeight d.vi 0 *
            2 * (2 * d.radius + 1)),
         Event.zeroPlane 1 (vsStride (planeWidth d.vi 0) * planeHeight d.vi 0 *
            2 * (2 * d.radius + 1)),
         Event.zeroPlane 2 (vsStride (planeWidth d.vi 0) * planeHeight d.vi 0 *
            2 * (2 * d.radius + 1)),
         Event.kernel (chromaKernelArgs d n)]) ∧
    (d.radius ≠ 0 → d.chroma = false →
      ∀ k a, (getFrameEvents d n)[k]? = some (Event.kernel a) →
        1 ≤ k ∧ ∃ p, a.dstPlanes = [p] ∧
          (getFrameEvents d n)[k - 1]? =
            some (Event.zeroPlane p
              (a.stride * a.height * 2 * (2 * d.radius + 1)))) ∧
    (d.chroma = false →
      ∀ p s, d.process.getD p false = false →
        Event.zeroPlane p s ∉ getFrameEvents d n) := by
  refine ⟨?_, ?_, ?_, ?_, ?_, ?_⟩
  · intro pool tid f1 s1 f2 s2
    exact acquireBuffer_of_lookup _ tid f2 s2 _
      (acquireBuffer_self_lookup pool tid f1 s1)
  · intro pool tid tid2 f s e h
    unfold acquireBuffer
    cases hl : pool.lookup tid with
    | some e2 => simp only [hl]; exact h
    | none =>
        simp only [hl]
        have hne : tid2 ≠ tid := by
          intro heq
          rw [heq, hl] at h
          cases h
        have hb : (tid2 == tid) = false := beq_eq_false_iff_ne.mpr hne
        simp [List.lookup, hb, h]
  · intro h0 k a
    cases hc : d.chroma with
    | true =>
        have htr : getFrameEvents d n =
            [Event.zeroScratch (vsStride (planeWidth d.vi 0) *
              planeHeight d.vi 0 * 2 * (num_planes true : ℤ)),
             Event.kernel (chromaKernelArgs d n)] := by
          rw [getFrameEvents, hc, if_pos rfl]
          simp [chromaEvents, h0]
        intro hk
        rw [htr] at hk
        rw [htr]
        rcases k with _ | k
        · rw [List.getElem?_cons_zero, Option.some.injEq] at hk
          cases hk
        rcases k with _ | m
        · rw [List.getElem?_cons_succ, List.getElem?_cons_zero,
            Option.some.injEq, Event.kernel.injEq] at hk
          subst hk
          refine ⟨le_refl 1, rfl, ?_⟩
          simp [chromaKernelArgs, h0]
        · rw [List.getElem?_cons_succ, List.getElem?_cons_succ] at hk
          simp at hk
    | false =>
        rw [getFrameEvents, hc, if_neg (by simp)]
        intro hk
        obtain ⟨h1, z, hz, hzz, hsc⟩ :=
          flatMap_blocks_kernel_prec (List.range d.vi.format.numPlanes)
            (planeEvents d n)
            (fun z a => z = Event.zeroScratch
              (a.stride * a.height * 2 * (num_planes false : ℤ)) ∧
              a.hasScratch = true)
            (by
              intro p _
              by_cases hpr : d.process.getD p false
              · rw [List.getD_eq_getElem?_getD] at hpr
                refine Or.inr ⟨Event.zeroScratch
                  (vsStride (planeWidth d.vi p) * planeHeight d.vi p * 2 *
                    (num_planes false : ℤ)),
                  perPlaneKernelArgs d n p, ?_, rfl, rfl, ?_⟩
                · simp [planeEvents, hpr, h0]
                · simp [perPlaneKernelArgs, h0]
              · rw [List.getD_eq_getElem?_getD] at hpr
                simp only [Bool.not_eq_true] at hpr
                exact Or.inl (by simp [planeEvents, hpr]))
            k a hk
        refine ⟨h1, ?_, hsc⟩
        rw [hzz] at hz
        exact hz
  · intro h0 hc
    rw [getFrameEvents, hc, if_pos rfl]
    simp [chromaEvents, h0]
  · intro h0 hc k a
    rw [getFrameEvents, hc, if_neg (by simp)]
    intro hk
    obtain ⟨h1, z, hz, p, hdst, hzz⟩ :=
      flatMap_blocks_kernel_prec (List.range d.vi.format.numPlanes)
        (planeEvents d n)
        (fun z a => ∃ p, a.dstPlanes = [p] ∧ z = Event.zeroPlane p
          (a.stride * a.height * 2 * (2 * d.radius + 1)))
        (by
          intro p _
          by_cases hpr : d.process.getD p false
          · rw [List.getD_eq_getElem?_getD] at hpr
            refine Or.inr ⟨Event.zeroPlane p
              (vsStride (planeWidth d.vi p) * planeHeight d.vi p * 2 *
                (2 * d.radius + 1)),
              perPlaneKernelArgs d n p, ?_, rfl, p, rfl, rfl⟩
            simp [planeEvents, hpr, h0]
          · rw [List.getD_eq_getElem?_getD] at hpr
            simp only [Bool.not_eq_true] at hpr
            exact Or.inl (by simp [planeEvents, hpr]))
        k a hk
    refine ⟨h1, p, hdst, ?_⟩
    rw [hzz] at hz
    exact hz
  · intro hc p s hproc hmem
    rw [getFrameEvents, hc, if_neg (by simp)] at hmem
    obtain ⟨q, _, hmem2⟩ := List.mem_flatMap.mp hmem
    obtain ⟨hq2, heq⟩ := zeroPlane_mem_planeEvents d n q p s hmem2
    subst heq
    rw [hproc] at hq2
    cases hq2

/-- Witness for C3 (amended), part (iii), at the temporal joint-chroma
configuration. -/
theorem C3_buffer_zeroing_witness :
    egChromaTemporal.radius ≠ 0 ∧ egChromaTemporal.chroma = true ∧
    getFrameEvents egChromaTemporal 0 =
      [Event.zeroPlane 0 (vsStride (planeWidth egChromaTemporal.vi 0) *
          planeHeight egChromaTemporal.vi 0 * 2 * (2 * egChromaTemporal.radius + 1)),
       Event.zeroPlane 1 (vsStride (planeWidth egChromaTemporal.vi 0) *
          planeHeight egChromaTemporal.vi 0 * 2 * (2 * egChromaTemporal.radius + 1)),
       Event.zeroPlane 2 (vsStride (planeWidth egChromaTemporal.vi 0) *
          planeHeight egChromaTemporal.vi 0 * 2 * (2 * egChromaTemporal.radius + 1)),
       Event.kernel (chromaKernelArgs egChromaTemporal 0)] :=
  ⟨by decide, rfl,
    (C3_buffer_zeroing egChromaTemporal 0).2.2.2.1 (by decide) rfl⟩

/-- **C9**: with a reference clip supplied, the primary clip's format valid,
and every other parameter valid, construction fails exactly when the
reference differs from the clip in format id, in dimensions, or in frame
count; each of the three mismatches yields its own distinct message
(format checked first, then dimensions, then frame count); and every
construction failure releases both node handles and creates no filter
instance. -/
theorem C9_ref_validation (inp : CreateInput) (rvi : VSVideoInfo)
    (href : inp.refVi = some rvi)
    (hconst : isConstantFormat inp.clipVi = true)
    (hst : inp.clipVi.format.sampleType = SampleType.stFloat)
    (hbits : inp.clipVi.format.bitsPerSample = 32)
    (hsig : ∀ x ∈ inp.sigma, 0 ≤ x)
    (hbs : ∀ x ∈ inp.block_step, 0 < x ∧ x ≤ 8)
    (hbm : ∀ x ∈ inp.bm_range, 0 < x)
    (hrad : ∀ r, inp.radius = some r → 0 ≤ r)
    (hpn : ∀ x ∈ inp.ps_num, 0 < x)
    (hps : ∀ x ∈ inp.ps_range, 0 < x)
    (hch : inp.chroma = none ∨ inp.chroma = some 0 ∨
      inp.clipVi.format.id = pfYUV444PS) :
    ((∃ msg, BM3DCreate inp = CreateOutcome.failure msg true true) ↔
      (rvi.format.id ≠ inp.clipVi.format.id ∨ rvi.width ≠ inp.clipVi.width ∨
        rvi.height ≠ inp.clipVi.height ∨
        rvi.numFrames ≠ inp.clipVi.numFrames)) ∧
    (rvi.format.id ≠ inp.clipVi.format.id →
      BM3DCreate inp = CreateOutcome.failure
        ("BM3D: " ++ "\"ref\" must be of the same format as \"clip\"")
        true true) ∧
    (rvi.format.id = inp.clipVi.format.id →
      (rvi.width ≠ inp.clipVi.width ∨ rvi.height ≠ inp.clipVi.height) →
      BM3DCreate inp = CreateOutcome.failure
        ("BM3D: " ++ "\"ref\" must be of the same dimensions as \"clip\"")
        true true) ∧
    (rvi.format.id = inp.clipVi.format.id → rvi.width = inp.clipVi.width →
      rvi.height = inp.clipVi.height → rvi.numFrames ≠ inp.clipVi.numFrames →
      BM3DCreate inp = CreateOutcome.failure
        ("BM3D: " ++ "\"ref\" must be of the same number of frames as \"clip\"")
        true true) ∧
    (("BM3D: " ++ "\"ref\" must be of the same format as \"clip\"" : String) ≠
        "BM3D: " ++ "\"ref\" must be of the same dimensions as \"clip\"" ∧
      ("BM3D: " ++ "\"ref\" must be of the same dimensions as \"clip\"" : String) ≠
        "BM3D: " ++ "\"ref\" must be of the same number of frames as \"clip\"" ∧
      ("BM3D: " ++ "\"ref\" must be of the same format as \"clip\"" : String) ≠
        "BM3D: " ++ "\"ref\" must be of the same number of frames as \"clip\"") ∧
    (∀ msg c r, BM3DCreate inp = CreateOutcome.failure msg c r →
      c = true ∧ r = true ∧
      ∀ d2, BM3DCreate inp ≠ CreateOutcome.success d2) := by
  have hfmtOk : checkClipFormat inp.clipVi = .ok () :=
    checkClipFormat_ok inp.clipVi hconst hst hbits
  have herr : ∀ e, checkRef inp.clipVi inp.refVi = .error e →
      BM3DCreate inp = CreateOutcome.failure ("BM3D: " ++ e) true true := by
    intro e he
    simp only [BM3DCreate, BM3DCreateE, hfmtOk, he]
  have h2 : rvi.format.id ≠ inp.clipVi.format.id →
      BM3DCreate inp = CreateOutcome.failure
        ("BM3D: " ++ "\"ref\" must be of the same format as \"clip\"")
        true true := by
    intro hne
    exact herr _ (by simp [checkRef, href, hne])
  have h3 : rvi.format.id = inp.clipVi.format.id →
      (rvi.width ≠ inp.clipVi.width ∨ rvi.height ≠ inp.clipVi.height) →
      BM3DCreate inp = CreateOutcome.failure
        ("BM3D: " ++ "\"ref\" must be of the same dimensions as \"clip\"")
        true true := by
    intro heq hne
    refine herr _ ?_
    simp only [checkRef, href]
    rw [if_neg (by simp [heq]), if_pos hne]
  have h4 : rvi.format.id = inp.clipVi.format.id → rvi.width = inp.clipVi.width →
      rvi.height = inp.clipVi.height → rvi.numFrames ≠ inp.clipVi.numFrames →
      BM3DCreate inp = CreateOutcome.failure
        ("BM3D: " ++ "\"ref\" must be of the same number of frames as \"clip\"")
        true true := by
    intro heq hw hh hne
    refine herr _ ?_
    simp only [checkRef, href]
    rw [if_neg (by simp [heq]), if_neg (by simp [hw, hh]), if_pos hne]
  refine ⟨?_, h2, h3, h4, ⟨by decide, by decide, by decide⟩,
    BM3DCreate_failure_shape inp⟩
  constructor
  · rintro ⟨msg, hmsg⟩
    by_contra hno
    push_neg at hno
    obtain ⟨e1, e2, e3, e4⟩ := hno
    have hrefOk : checkRef inp.clipVi inp.refVi = .ok () := by
      simp [checkRef, href, e1, e2, e3, e4]
    obtain ⟨sl, hsl⟩ := computeSigma_ok inp.sigma inp.refVi.isSome hsig
    obtain ⟨bsl, hbsl⟩ := computeIntParam_ok inp.block_step 8
      (fun v => v ≤ 0 ∨ 8 < v) "\"block_step\" must be in range [1, 8]"
      (fun x hx => by have := hbs x hx; omega)
    obtain ⟨bml, hbml⟩ := computeIntParam_ok inp.bm_range 9
      (fun v => v ≤ 0) "\"bm_range\" must be positive"
      (fun x hx => by have := hbm x hx; omega)
    obtain ⟨rad, hradE⟩ := readRadius_ok inp.radius hrad
    obtain ⟨pnl, hpnl⟩ := computeIntParam_ok inp.ps_num 2
      (fun v => v ≤ 0) "\"ps_num\" must be positive"
      (fun x hx => by have := hpn x hx; omega)
    obtain ⟨prl, hprl⟩ := computeIntParam_ok inp.ps_range 4
      (fun v => v ≤ 0) "\"ps_range\" must be positive"
      (fun x hx => by have := hps x hx; omega)
    obtain ⟨chb, hchb⟩ := readChroma_ok inp.chroma inp.clipVi hch
    cases he : BM3DCreateE inp with
    | ok dd =>
        simp only [BM3DCreate, he] at hmsg
        exact absurd hmsg (by simp)
    | error e =>
        simp only [BM3DCreateE, hfmtOk, hrefOk, hsl, hbsl, hbml, hradE,
          hpnl, hprl, hchb] at he
        exact absurd he (by simp)
  · intro hmis
    by_cases he1 : rvi.format.id = inp.clipVi.format.id
    · by_cases he2 : rvi.width = inp.clipVi.width ∧ rvi.height = inp.clipVi.height
      · have hne : rvi.numFrames ≠ inp.clipVi.numFrames := by tauto
        exact ⟨_, h4 he1 he2.1 he2.2 hne⟩
      · have hne : rvi.width ≠ inp.clipVi.width ∨ rvi.height ≠ inp.clipVi.height := by
          tauto
        exact ⟨_, h3 he1 hne⟩
    · exact ⟨_, h2 he1⟩

/-- Witness for C9: a reference clip with mismatched width produces the
dimensions failure with both node handles released. -/
theorem C9_ref_validation_witness :
    egCreateIn.refVi = some { egVi with width := 32 } ∧
    ({ egVi with width := 32 } : VSVideoInfo).format.id =
      egCreateIn.clipVi.format.id ∧
    ({ egVi with width := 32 } : VSVideoInfo).width ≠ egCreateIn.clipVi.width ∧
    BM3DCreate egCreateIn = CreateOutcome.failure
      ("BM3D: " ++ "\"ref\" must be of the same dimensions as \"clip\"")
      true true :=
  ⟨rfl, rfl, by decide,
    (C9_ref_validation egCreateIn { egVi with width := 32 } rfl (by decide) rfl
      rfl (by decide) (by decide) (by decide)
      (by intro r h; simp [egCreateIn] at h; omega) (by decide) (by decide)
      (Or.inr (Or.inl rfl))).2.2.1 rfl (Or.inl (by decide))⟩

end BM3D
